import Mathlib

/-!
Verification development for the GPS clock firmware (arduclock).

The definitions below are a shallow embedding of the firmware's core logic:

* the timezone table and clock state (`TIMEZONES`, `ClockState`),
* the DST calculator (`calculateDSTAuto`, `calculateFirstSunday`,
  `calculateSecondSunday`) together with the earlier approximate variant
  (`calculateDSTAutoSimple`),
* the timezone resolver (`detectTimezoneFromLocation`,
  `updateTimezoneSettings`, `updateLocationIfNeeded`),
* the time compositor (`normalizeHours`, `updateTimeFromGPS`,
  `convertTo12Hour`) and the original sketch's single-conditional
  normalization (`normalizeSketchHours`),
* the display formatter (`updateDisplay`).

Modelling conventions:

* C `uint8_t` arithmetic is modelled on `Nat` with an explicit `% 256`
  wherever a value is stored back into a `uint8_t`; C `int` arithmetic is
  modelled on `Int` (no overflow occurs in the ranges exercised here).
* GPS latitude/longitude are C `float`s that the firmware only ever
  *compares* against whole-degree constants (which are exactly
  representable); those order comparisons are modelled exactly on `ℚ`.
* `millis()` values are `uint32_t`; the elapsed-time subtraction is modelled
  by `elapsed32`, which agrees with C unsigned subtraction for inputs below
  `2 ^ 32`.
* Reads of digital input pins are passed in as explicit `Bool` parameters
  (`true` = the pin reads LOW, i.e. the switch is asserted).
-/

/-- Timezone descriptor, mirroring `struct Timezone` (with the geographic
bounding box of the later revision; the earlier revision's table has the
same first five fields with identical values). -/
structure Timezone where
  name : String
  abbreviation : String
  utcOffset : Int
  observesDST : Bool
  dstOffset : Int
  minLat : ℚ
  maxLat : ℚ
  minLon : ℚ
  maxLon : ℚ
deriving Repr, DecidableEq

/-- The static timezone table `TIMEZONES`, in declared order. -/
def TIMEZONES : List Timezone :=
  [ ⟨"Pacific Standard", "PST", -8, true, 1, 32, 49, -125, -114⟩,
    ⟨"Mountain Standard", "MST", -7, true, 1, 31, 49, -114, -104⟩,
    ⟨"Central Standard", "CST", -6, true, 1, 25, 49, -104, -87⟩,
    ⟨"Eastern Standard", "EST", -5, true, 1, 24, 49, -87, -67⟩,
    ⟨"Atlantic Standard", "AST", -4, false, 0, 44, 60, -70, -53⟩,
    ⟨"Hawaii Standard", "HST", -10, false, 0, 18, 23, -161, -154⟩,
    ⟨"Alaska Standard", "AKST", -9, true, 1, 54, 72, -180, -130⟩,
    ⟨"UTC", "UTC", 0, false, 0, -90, 90, -180, 180⟩ ]

/-- `NUM_TIMEZONES = sizeof(TIMEZONES)/sizeof(TIMEZONES[0])`. -/
def NUM_TIMEZONES : Nat := TIMEZONES.length

/-- The fallback entry (used as the default of out-of-range table reads,
which are undefined behaviour in the C source and never reachable). -/
def utcEntry : Timezone := ⟨"UTC", "UTC", 0, false, 0, -90, 90, -180, 180⟩

/-- Snapshot of the decoded GPS data consumed by the core
(`gps.fix`, `gps.hour/minute/seconds`, `gps.day/month/year`,
`gps.latitudeDegrees/longitudeDegrees`). -/
structure GPSData where
  fix : Bool
  hour : Nat
  minute : Nat
  seconds : Nat
  day : Nat
  month : Nat
  year : Nat
  latitudeDegrees : ℚ
  longitudeDegrees : ℚ
deriving Repr, DecidableEq

/-- `struct ClockState`, with the C++ default member initializers. -/
structure ClockState where
  lastUpdate : Nat := 0
  lastTimezoneCheck : Nat := 0
  lastLocationCheck : Nat := 0
  colonState : Bool := false
  gpsFixValid : Bool := false
  hours : Nat := 0
  minutes : Nat := 0
  seconds : Nat := 0
  currentTimezoneIndex : Nat := 0
  isDSTActive : Bool := false
  dstSwitchState : Bool := false
  timezoneSwitchState : Nat := 0
  autoModeEnabled : Bool := true
  lastLat : ℚ := 0
  lastLon : ℚ := 0
  locationChanged : Bool := false
deriving Repr, DecidableEq

/-- `getCurrentTimezone()`: `TIMEZONES[clockState.currentTimezoneIndex]`. -/
def getCurrentTimezone (s : ClockState) : Timezone :=
  TIMEZONES.getD s.currentTimezoneIndex utcEntry

/-- `getTimezoneOffset()`. -/
def getTimezoneOffset (s : ClockState) : Int :=
  (getCurrentTimezone s).utcOffset

/-- `getDSTOffset()`. -/
def getDSTOffset (s : ClockState) : Int :=
  let tz := getCurrentTimezone s
  if !tz.observesDST then 0
  else if s.isDSTActive then tz.dstOffset else 0

/-- `calculateTimezoneOffset()`. -/
def calculateTimezoneOffset (s : ClockState) : Int :=
  getTimezoneOffset s + getDSTOffset s

/-- First loop of `normalizeHours`: `while (hours < 0) hours += 24;`. -/
def normLoopNeg (h : Int) : Int :=
  if h < 0 then normLoopNeg (h + 24) else h
termination_by (-h).toNat
decreasing_by omega

/-- Second loop of `normalizeHours`: `while (hours >= 24) hours -= 24;`. -/
def normLoopPos (h : Int) : Int :=
  if h ≥ 24 then normLoopPos (h - 24) else h
termination_by h.toNat
decreasing_by omega

/-- `normalizeHours` (the modulo-loop form of the later revisions). -/
def normalizeHours (h : Int) : Int :=
  normLoopPos (normLoopNeg h)

/-- The single-conditional normalization of the original sketch's `loop()`:
`if (hours < 0) hours = 24 + hours; if (hours > 23) hours = 24 - hours;`. -/
def normalizeSketchHours (h : Int) : Int :=
  let h1 := if h < 0 then 24 + h else h
  if h1 > 23 then 24 - h1 else h1

/-- `convertTo12Hour`. -/
def convertTo12Hour (hours24 : Int) : Int :=
  if hours24 = 0 then 12
  else if hours24 > 12 then hours24 - 12
  else hours24

/-- `updateTimeFromGPS()`: composes the local time from the GPS UTC time and
the resolved total offset, storing the normalized hour into the `uint8_t`
state field (the normalized value lies in `[0,23]`, so the `toNat` cast is
exact). -/
def updateTimeFromGPS (gps : GPSData) (s : ClockState) : ClockState :=
  let totalOffset := calculateTimezoneOffset s
  let adjustedHours := (gps.hour : Int) + totalOffset
  let adjustedHours := normalizeHours adjustedHours
  { s with hours := adjustedHours.toNat, minutes := gps.minute,
           seconds := gps.seconds }

/-- Output of the display path: either the no-GPS indicator or a 4-digit
value with a colon flag (`updateDisplay` hands exactly these to the
display driver). -/
inductive DisplayOutput where
  | noSignal : DisplayOutput
  | time (displayValue : Int) (colonOn : Bool) : DisplayOutput
deriving Repr, DecidableEq

/-- `Config::TIME_24_HOUR`. -/
def TIME_24_HOUR : Bool := false

/-- `updateDisplay()`: short-circuits to the no-signal indicator without a
fix; otherwise computes `displayValue = displayHours*100 + minutes` and the
colon flag `seconds % 2 == 0` (the leading-zero `writeDigitNum` calls are
display-driver side effects with no influence on these two outputs). -/
def updateDisplay (s : ClockState) : DisplayOutput :=
  if !s.gpsFixValid then DisplayOutput.noSignal
  else
    let displayHours : Int :=
      if !TIME_24_HOUR then convertTo12Hour (s.hours : Int) else (s.hours : Int)
    DisplayOutput.time (displayHours * 100 + (s.minutes : Int))
      (decide (s.seconds % 2 = 0))

/-- `calculateFirstSunday(month, year)`, including the source's `uint8_t`
truncations: `fullYear = 2000 + year` is stored in a `uint8_t` (so it is
reduced mod 256), as is the decremented `adjustedYear` for January and
February (`(fullYear + 255) % 256` is C unsigned `fullYear - 1`).  The
Zeller sum itself is computed in `int`; on `Nat` the single subtraction
never truncates because the preceding terms already contain
`adjustedYear ≥ adjustedYear / 100`. -/
def calculateFirstSunday (month year : Nat) : Nat :=
  let fullYear := (2000 + year) % 256
  let adjustedMonth := if month < 3 then (month + 12) % 256 else month
  let adjustedYear := if month < 3 then (fullYear + 255) % 256 else fullYear
  let dayOfWeek := (1 + (13 * (adjustedMonth + 1)) / 5 + adjustedYear +
      adjustedYear / 4 - adjustedYear / 100 + adjustedYear / 400) % 7
  let dayOfWeek := (dayOfWeek + 5) % 7
  if dayOfWeek = 0 then 1 else 8 - dayOfWeek

/-- `calculateSecondSunday(month, year)` (the `uint8_t` return cannot
truncate: the first Sunday is at most 7). -/
def calculateSecondSunday (month year : Nat) : Nat :=
  calculateFirstSunday month year + 7

/-- `calculateDSTAuto()` of the later revision (exact Sunday computation),
reading the GPS date snapshot and the clock state. -/
def calculateDSTAuto (gps : GPSData) (s : ClockState) : Bool :=
  if !s.gpsFixValid then false
  else if !(getCurrentTimezone s).observesDST then false
  else
    let month := gps.month
    let day := gps.day
    let year := gps.year
    if month < 3 ∨ month > 11 then false
    else if month > 3 ∧ month < 11 then true
    else
      let dstStartDay := calculateSecondSunday 3 year
      let dstEndDay := calculateFirstSunday 11 year
      if month = 3 then decide (day ≥ dstStartDay)
      else if month = 11 then decide (day < dstEndDay)
      else false

/-- `calculateDSTAuto()` of the earlier revision (the "rough approximation"
variant). -/
def calculateDSTAutoSimple (gps : GPSData) (s : ClockState) : Bool :=
  if !s.gpsFixValid then false
  else if !(getCurrentTimezone s).observesDST then false
  else
    let month := gps.month
    let day := gps.day
    if month ≥ 4 ∧ month ≤ 10 then true
    else if month = 3 then decide (day ≥ 8)
    else if month = 11 then decide (day < 7)
    else false

/-- Bounding-box test of `detectTimezoneFromLocation`'s loop body:
`lat >= tz.minLat && lat <= tz.maxLat && lon >= tz.minLon && lon <= tz.maxLon`. -/
def tzContains (tz : Timezone) (lat lon : ℚ) : Bool :=
  decide (tz.minLat ≤ lat) && decide (lat ≤ tz.maxLat) &&
  decide (tz.minLon ≤ lon) && decide (lon ≤ tz.maxLon)

/-- The scan loop of `detectTimezoneFromLocation`:
`for (i = 0; i < NUM_TIMEZONES - 1; i++)`, returning the first match and
falling back to `NUM_TIMEZONES - 1` (the UTC entry). -/
def detectLoop (lat lon : ℚ) (i : Nat) : Nat :=
  if i < NUM_TIMEZONES - 1 then
    if tzContains (TIMEZONES.getD i utcEntry) lat lon then i
    else detectLoop lat lon (i + 1)
  else NUM_TIMEZONES - 1
termination_by NUM_TIMEZONES - 1 - i

/-- `detectTimezoneFromLocation(lat, lon)`. -/
def detectTimezoneFromLocation (lat lon : ℚ) : Nat :=
  detectLoop lat lon 0

/-- The four switch pin reads consumed by `updateTimezoneSettings`
(`true` = pin reads LOW = switch asserted). -/
structure SwitchInputs where
  pinALow : Bool
  pinBLow : Bool
  pinCLow : Bool
  dstLow : Bool
deriving Repr, DecidableEq

/-- Assembly of the 3-bit selector `newTimezoneState` from the pins. -/
def readTimezoneSelector (sw : SwitchInputs) : Nat :=
  (if sw.pinALow then 1 else 0) |||
  (if sw.pinBLow then 2 else 0) |||
  (if sw.pinCLow then 4 else 0)

/-- The manual-mode index computation `newTimezoneState % NUM_TIMEZONES`. -/
def manualTimezoneIndex (selector : Nat) : Nat :=
  selector % NUM_TIMEZONES

/-- `updateTimezoneSettings()` (the later revision's guard `if
(clockState.autoModeEnabled) return;` included). -/
def updateTimezoneSettings (sw : SwitchInputs) (s : ClockState) : ClockState :=
  if s.autoModeEnabled then s
  else
    let newTimezoneState := readTimezoneSelector sw
    let newDSTState := sw.dstLow
    let s :=
      if newTimezoneState ≠ s.timezoneSwitchState then
        { s with timezoneSwitchState := newTimezoneState,
                 currentTimezoneIndex := manualTimezoneIndex newTimezoneState }
      else s
    if newDSTState ≠ s.dstSwitchState then
      { s with dstSwitchState := newDSTState, isDSTActive := newDSTState }
    else s

/-- `Config::LOCATION_CHECK_MS`. -/
def LOCATION_CHECK_MS : Nat := 30000

/-- `uint32_t` elapsed-time subtraction `now - last`; for arguments below
`2 ^ 32` this is exactly the C unsigned difference. -/
def elapsed32 (now last : Nat) : Nat :=
  (now + 2 ^ 32 - last % 2 ^ 32) % 2 ^ 32

/-- `Config::LOCATION_TOLERANCE` (the `float` constant `0.1`, taken at its
nominal rational value; it only gates the `locationChanged` flag). -/
def LOCATION_TOLERANCE : ℚ := 1 / 10

/-- `updateLocationIfNeeded()`: the auto-mode resolver tick.  `now` is the
current `millis()` reading, `autoPinLow` the `AUTO_MODE_PIN` level and `sw`
the manual switch pins (consumed only when the mode flips to manual). -/
def updateLocationIfNeeded (now : Nat) (gps : GPSData) (autoPinLow : Bool)
    (sw : SwitchInputs) (s : ClockState) : ClockState :=
  if !s.gpsFixValid then s
  else
    let s1 :=
      if elapsed32 now s.lastLocationCheck ≥ LOCATION_CHECK_MS ∨
          s.locationChanged then
        let s2 :=
          if s.locationChanged ∨ s.lastLat = 0 then
            let newTimezoneIndex :=
              detectTimezoneFromLocation gps.latitudeDegrees gps.longitudeDegrees
            let s3 :=
              if newTimezoneIndex ≠ s.currentTimezoneIndex then
                let s4 := { s with currentTimezoneIndex := newTimezoneIndex }
                if (getCurrentTimezone s4).observesDST then
                  { s4 with isDSTActive := calculateDSTAuto gps s4 }
                else
                  { s4 with isDSTActive := false }
              else s
            { s3 with lastLat := gps.latitudeDegrees,
                      lastLon := gps.longitudeDegrees,
                      locationChanged := false }
          else s
        { s2 with lastLocationCheck := now }
      else s
    let newAutoMode := autoPinLow
    if newAutoMode ≠ s1.autoModeEnabled then
      let s5 := { s1 with autoModeEnabled := newAutoMode }
      if !newAutoMode then updateTimezoneSettings sw s5 else s5
    else s1

/-- `updateGPSData()`: `nmeaReceived` and `parseOk` are the results of
`gps.newNMEAreceived()` and `gps.parse(gps.lastNMEA())`. -/
def updateGPSData (nmeaReceived parseOk : Bool) (gps : GPSData)
    (s : ClockState) : ClockState :=
  if nmeaReceived && parseOk then
    let s1 := { s with gpsFixValid := gps.fix }
    if gps.fix then
      let s2 := updateTimeFromGPS gps s1
      if |gps.latitudeDegrees - s2.lastLat| > LOCATION_TOLERANCE ∨
          |gps.longitudeDegrees - s2.lastLon| > LOCATION_TOLERANCE then
        { s2 with locationChanged := true }
      else s2
    else s1
  else s

/-!
## Reference Gregorian calendar

Used to state what the *true* first/second Sunday of a month is (the spec's
"must be exact" requirement).  Anchored at 2000-01-01, which was a
Saturday; `dayOfWeekRef` uses the Sunday = 0 convention and is meaningful
for years ≥ 2000.
-/

/-- Gregorian leap-year test. -/
def isLeapYearRef (y : Nat) : Bool :=
  (y % 4 = 0 && y % 100 ≠ 0) || y % 400 = 0

/-- Length of month `m` (1–12). -/
def monthLengthRef (leap : Bool) (m : Nat) : Nat :=
  match m with
  | 1 => 31 | 2 => if leap then 29 else 28 | 3 => 31 | 4 => 30
  | 5 => 31 | 6 => 30 | 7 => 31 | 8 => 31 | 9 => 30 | 10 => 31
  | 11 => 30 | 12 => 31 | _ => 0

/-- Days in months strictly before month `m`. -/
def daysBeforeMonthRef (leap : Bool) (m : Nat) : Nat :=
  (List.range m).foldl (fun acc k => acc + monthLengthRef leap k) 0

/-- Number of leap years in `[1, y)`. -/
def leapYearsBeforeRef (y : Nat) : Nat :=
  (y - 1) / 4 - (y - 1) / 100 + (y - 1) / 400

/-- Days elapsed since 2000-01-01 (for `y ≥ 2000`). -/
def daysSince2000Ref (y m d : Nat) : Nat :=
  365 * (y - 2000) + (leapYearsBeforeRef y - leapYearsBeforeRef 2000) +
    daysBeforeMonthRef (isLeapYearRef y) m + (d - 1)

/-- Day of week (Sunday = 0) of `y-m-d`, for `y ≥ 2000`
(2000-01-01 was a Saturday, i.e. day 6). -/
def dayOfWeekRef (y m d : Nat) : Nat :=
  (6 + daysSince2000Ref y m d) % 7

/-- True calendar day-of-month of the first Sunday of month `m` of year `y`. -/
def firstSundayRef (m y : Nat) : Nat :=
  let w := dayOfWeekRef y m 1
  if w = 0 then 1 else 8 - w

/-- True calendar day-of-month of the second Sunday of month `m` of year `y`. -/
def secondSundayRef (m y : Nat) : Nat :=
  firstSundayRef m y + 7

/-!
## Helper lemmas
-/

lemma NUM_TIMEZONES_eq : NUM_TIMEZONES = 8 := rfl

lemma normLoopNeg_spec (n : Nat) :
    ∀ h : Int, (-h).toNat ≤ n →
      0 ≤ normLoopNeg h ∧ normLoopNeg h % 24 = h % 24 := by
  induction n with
  | zero =>
    intro h hn
    rw [normLoopNeg]
    split
    · omega
    · exact ⟨by omega, rfl⟩
  | succ n ih =>
    intro h hn
    rw [normLoopNeg]
    split
    · rcases ih (h + 24) (by omega) with ⟨h1, h2⟩
      exact ⟨h1, by omega⟩
    · exact ⟨by omega, rfl⟩

lemma normLoopNeg_nonneg (h : Int) : 0 ≤ normLoopNeg h :=
  (normLoopNeg_spec (-h).toNat h le_rfl).1

lemma normLoopNeg_emod (h : Int) : normLoopNeg h % 24 = h % 24 :=
  (normLoopNeg_spec (-h).toNat h le_rfl).2

lemma normLoopPos_spec (n : Nat) :
    ∀ h : Int, h.toNat ≤ n → 0 ≤ h → normLoopPos h = h % 24 := by
  induction n with
  | zero =>
    intro h hn h0
    rw [normLoopPos]
    split
    · omega
    · omega
  | succ n ih =>
    intro h hn h0
    rw [normLoopPos]
    split
    · rw [ih (h - 24) (by omega) (by omega)]
      omega
    · omega

/-- The two while loops of `normalizeHours` compute exactly `h mod 24`
(the mathematical, always-nonnegative remainder). -/
lemma normalizeHours_eq_emod (h : Int) : normalizeHours h = h % 24 := by
  unfold normalizeHours
  rw [normLoopPos_spec (normLoopNeg h).toNat (normLoopNeg h) le_rfl
      (normLoopNeg_nonneg h)]
  rw [normLoopNeg_emod]

/-!
## Concrete fixtures used by the claims below
-/

/-- GPS snapshot with a valid fix at the given civil date (time fields 0,
position at the origin). -/
def gpsAt (month day year : Nat) : GPSData :=
  ⟨true, 0, 0, 0, day, month, year, 0, 0⟩

/-- Clock state with a valid fix, Pacific Standard selected and DST
considered active. -/
def pacificDstState : ClockState :=
  { gpsFixValid := true, currentTimezoneIndex := 0, isDSTActive := true }

/-- C1 (code_bug): evaluation of the DST calculator at the 2024 transition
boundaries.  The claim (and the US rule) demand March 10, 2024 → active and
November 3, 2024 → inactive; the code returns the opposite on both, because
`calculateFirstSunday` stores `2000 + year` in a `uint8_t` (2024 becomes
232) and converts Zeller day numbers with an off-by-one shift, computing
March's second Sunday as 12 (truly 10) and November's first Sunday as 5
(truly 3).  March 9 and November 2 happen to agree with the claim. -/
theorem dst_2024_transition_eval :
    calculateDSTAuto (gpsAt 3 10 24) pacificDstState = false ∧
    calculateDSTAuto (gpsAt 3 9 24) pacificDstState = false ∧
    calculateDSTAuto (gpsAt 11 3 24) pacificDstState = true ∧
    calculateDSTAuto (gpsAt 11 2 24) pacificDstState = true ∧
    secondSundayRef 3 2024 = 10 ∧
    firstSundayRef 11 2024 = 3 ∧
    calculateSecondSunday 3 24 = 12 ∧
    calculateFirstSunday 11 24 = 5 := by
  decide

/-- C2 (code_bug): `calculateFirstSunday` does not return the true first
Sunday.  For November of two-digit year 24 it returns 5, while the first
Sunday of November 2024 is the 3rd; same failure for March 2024 (returns 5,
truly 3).  The `calculateSecondSunday = firstSunday + 7` half of the claim
does hold. -/
theorem first_sunday_eval :
    calculateFirstSunday 11 24 = 5 ∧
    firstSundayRef 11 2024 = 3 ∧
    calculateFirstSunday 3 24 = 5 ∧
    firstSundayRef 3 2024 = 3 ∧
    calculateSecondSunday 11 24 = calculateFirstSunday 11 24 + 7 ∧
    calculateSecondSunday 3 24 = calculateFirstSunday 3 24 + 7 := by
  decide

/-- C3 (corrected, counterexample): the original sketch's single-conditional
normalization violates the claimed range property.  At UTC hour 23 with
total offset +2 (`hours = 25`) it computes `24 - 25 = -1`, outside
`[0, 23]`. -/
theorem sketch_normalization_counterexample :
    normalizeSketchHours (23 + 2) = -1 ∧
    ¬ (0 ≤ normalizeSketchHours (23 + 2) ∧ normalizeSketchHours (23 + 2) ≤ 23) := by
  decide

/-- C3 (corrected, amended): the round-trip property holds for the
modulo-loop form `normalizeHours`: for every UTC hour `h ∈ [0,23]` and
total offset `o ∈ [-14,14]`, `normalizeHours (h+o)` lies in `[0,23]` and
reversing the offset recovers `h`. -/
theorem normalizeHours_roundtrip (h o : Int)
    (h0 : 0 ≤ h) (h23 : h ≤ 23) (olo : -14 ≤ o) (ohi : o ≤ 14) :
    0 ≤ normalizeHours (h + o) ∧ normalizeHours (h + o) ≤ 23 ∧
    normalizeHours (normalizeHours (h + o) - o) = h := by
  simp only [normalizeHours_eq_emod]
  omega

/-- Witness for `normalizeHours_roundtrip` at `h = 23`, `o = 2`. -/
theorem normalizeHours_roundtrip_witness :
    normalizeHours (23 + 2) ≤ 23 ∧ normalizeHours (normalizeHours (23 + 2) - 2) = 23 :=
  ⟨(normalizeHours_roundtrip 23 2 (by decide) (by decide) (by decide) (by decide)).2.1,
   (normalizeHours_roundtrip 23 2 (by decide) (by decide) (by decide) (by decide)).2.2⟩

/-- C7 (confirmed): `convertTo12Hour` maps 0 to 12, 13–23 to hour − 12,
leaves 1–12 unchanged, and lands in `[1, 12]` for every hour in `[0, 23]`. -/
theorem convertTo12Hour_spec (h : Int) (h0 : 0 ≤ h) (h23 : h ≤ 23) :
    (h = 0 → convertTo12Hour h = 12) ∧
    (13 ≤ h → convertTo12Hour h = h - 12) ∧
    (1 ≤ h → h ≤ 12 → convertTo12Hour h = h) ∧
    1 ≤ convertTo12Hour h ∧ convertTo12Hour h ≤ 12 := by
  unfold convertTo12Hour
  split_ifs <;> omega

/-- Witness for `convertTo12Hour_spec` at hour 13. -/
theorem convertTo12Hour_spec_witness : convertTo12Hour 13 = 13 - 12 :=
  (convertTo12Hour_spec 13 (by decide) (by decide)).2.1 (by decide)

/-- C10 (corrected, counterexample): the approximate and the exact DST
calculators disagree.  March 8 of two-digit year 24 (fix valid, Pacific):
the approximation (`day >= 8`) says active, the exact variant compares
against its computed second Sunday (12) and says inactive; November 5
likewise (`day < 7` vs `day < 5`). -/
theorem dst_variants_counterexample :
    calculateDSTAutoSimple (gpsAt 3 8 24) pacificDstState = true ∧
    calculateDSTAuto (gpsAt 3 8 24) pacificDstState = false ∧
    calculateDSTAutoSimple (gpsAt 11 5 24) pacificDstState = true ∧
    calculateDSTAuto (gpsAt 11 5 24) pacificDstState = false := by
  decide

/-- C10 (corrected, amended): the two DST calculation variants agree for
every month other than March and November — on any state and any day and
year, including the no-fix and non-DST-timezone guards — but can disagree
in March and in November. -/
theorem dst_variants_agree_off_months (gps : GPSData) (s : ClockState)
    (h3 : gps.month ≠ 3) (h11 : gps.month ≠ 11) :
    calculateDSTAutoSimple gps s = calculateDSTAuto gps s := by
  unfold calculateDSTAutoSimple calculateDSTAuto
  dsimp only
  split_ifs <;> first | rfl | omega

/-- Witness for `dst_variants_agree_off_months` in July. -/
theorem dst_variants_agree_off_months_witness :
    calculateDSTAutoSimple (gpsAt 7 15 24) pacificDstState
      = calculateDSTAuto (gpsAt 7 15 24) pacificDstState :=
  dst_variants_agree_off_months (gpsAt 7 15 24) pacificDstState
    (by decide) (by decide)

/-- First-match specification of the resolver's scan loop, for any start
index: either it stops before the fallback at the first containing entry,
or it reaches the fallback with no entry containing the point. -/
lemma detectLoop_spec (lat lon : ℚ) :
    ∀ n i : Nat, i + n = NUM_TIMEZONES - 1 →
      (detectLoop lat lon i < NUM_TIMEZONES - 1 ∧
       tzContains (TIMEZONES.getD (detectLoop lat lon i) utcEntry) lat lon = true ∧
       i ≤ detectLoop lat lon i ∧
       (∀ j, i ≤ j → j < detectLoop lat lon i →
         tzContains (TIMEZONES.getD j utcEntry) lat lon = false)) ∨
      (detectLoop lat lon i = NUM_TIMEZONES - 1 ∧
       (∀ j, i ≤ j → j < NUM_TIMEZONES - 1 →
         tzContains (TIMEZONES.getD j utcEntry) lat lon = false)) := by
  intro n
  induction n with
  | zero =>
    intro i hi
    rw [detectLoop]
    rw [NUM_TIMEZONES_eq] at hi ⊢
    split
    · omega
    · exact Or.inr ⟨rfl, fun j hj1 hj2 => absurd (lt_of_le_of_lt hj1 hj2) (by omega)⟩
  | succ n ih =>
    intro i hi
    rw [detectLoop]
    rw [NUM_TIMEZONES_eq] at hi ⊢
    split
    · rename_i hlt
      split
      · rename_i hc
        exact Or.inl ⟨by omega, by simpa using hc, le_rfl,
          fun j hj1 hj2 => absurd (lt_of_le_of_lt hj1 hj2) (by omega)⟩
      · rename_i hc
        have hrec := ih (i + 1) (by simp only [NUM_TIMEZONES_eq]; omega)
        rw [NUM_TIMEZONES_eq] at hrec
        rcases hrec with ⟨r1, r2, r3, r4⟩ | ⟨r1, r2⟩
        · refine Or.inl ⟨r1, r2, by omega, fun j hj1 hj2 => ?_⟩
          rcases Nat.eq_or_lt_of_le hj1 with hj | hj
          · subst hj; simpa using hc
          · exact r4 j hj hj2
        · refine Or.inr ⟨r1, fun j hj1 hj2 => ?_⟩
          rcases Nat.eq_or_lt_of_le hj1 with hj | hj
          · subst hj; simpa using hc
          · exact r2 j hj hj2
    · omega

/-- The auto-mode resolver always returns an in-range index. -/
lemma detectTimezoneFromLocation_lt (lat lon : ℚ) :
    detectTimezoneFromLocation lat lon < NUM_TIMEZONES := by
  have h := detectLoop_spec lat lon (NUM_TIMEZONES - 1) 0 (by simp)
  unfold detectTimezoneFromLocation
  rcases h with ⟨h1, -⟩ | ⟨h1, -⟩
  · simp only [NUM_TIMEZONES_eq] at h1 ⊢; omega
  · simp only [NUM_TIMEZONES_eq] at h1 ⊢; omega

/-- C4 (confirmed): `detectTimezoneFromLocation` scans the non-fallback
entries in declared order and returns the index of the first entry whose
bounding box contains the point; if no declared box contains it, it
returns the fallback (UTC) index `NUM_TIMEZONES - 1`.  For overlapping
boxes this is the first declared match, since every earlier entry is
rejected. -/
theorem detect_timezone_first_match (lat lon : ℚ) :
    (detectTimezoneFromLocation lat lon < NUM_TIMEZONES - 1 ∧
     tzContains (TIMEZONES.getD (detectTimezoneFromLocation lat lon) utcEntry)
       lat lon = true ∧
     (∀ j, j < detectTimezoneFromLocation lat lon →
       tzContains (TIMEZONES.getD j utcEntry) lat lon = false)) ∨
    (detectTimezoneFromLocation lat lon = NUM_TIMEZONES - 1 ∧
     (∀ j, j < NUM_TIMEZONES - 1 →
       tzContains (TIMEZONES.getD j utcEntry) lat lon = false)) := by
  have h := detectLoop_spec lat lon (NUM_TIMEZONES - 1) 0 (by simp)
  unfold detectTimezoneFromLocation
  rcases h with ⟨h1, h2, -, h4⟩ | ⟨h1, h2⟩
  · exact Or.inl ⟨h1, h2, fun j hj => h4 j (Nat.zero_le j) hj⟩
  · exact Or.inr ⟨h1, fun j hj => h2 j (Nat.zero_le j) hj⟩

/-- The manual-mode update keeps the timezone index inside the table. -/
lemma updateTimezoneSettings_index (sw : SwitchInputs) (s : ClockState)
    (h : s.currentTimezoneIndex < NUM_TIMEZONES) :
    (updateTimezoneSettings sw s).currentTimezoneIndex < NUM_TIMEZONES := by
  unfold updateTimezoneSettings
  dsimp only
  split_ifs <;>
    simp_all [manualTimezoneIndex, Nat.mod_lt, NUM_TIMEZONES_eq]

/-- The auto-mode tick keeps the timezone index inside the table. -/
lemma updateLocationIfNeeded_index (now : Nat) (gps : GPSData)
    (autoPinLow : Bool) (sw : SwitchInputs) (s : ClockState)
    (h : s.currentTimezoneIndex < NUM_TIMEZONES) :
    (updateLocationIfNeeded now gps autoPinLow sw s).currentTimezoneIndex <
      NUM_TIMEZONES := by
  unfold updateLocationIfNeeded
  dsimp only
  split_ifs <;>
    first
      | exact h
      | (apply updateTimezoneSettings_index
         simp_all [detectTimezoneFromLocation_lt])
      | simp_all [detectTimezoneFromLocation_lt]

/-- Clock state in manual mode with all switch states at their initial
values. -/
def manualState : ClockState := { autoModeEnabled := false }

/-- Switch inputs selecting binary `100` (= 4, Atlantic Standard) with the
DST switch asserted. -/
def manualSwitches : SwitchInputs := ⟨false, false, true, true⟩

/-- C5 (confirmed): `0 ≤ currentTimezoneIndex < NUM_TIMEZONES` holds after
every operation that updates it (the lower bound is by the index's type):
the manual-mode update reduces the 3-bit selector modulo the table size
(and `selector mod tableSize` wraps any selector, e.g. 9 with table size
8 gives 1), and the auto-mode tick only ever installs an index returned by
`detectTimezoneFromLocation`, which is always below the table length. -/
theorem timezone_index_invariant (sw : SwitchInputs) (now : Nat)
    (gps : GPSData) (autoPinLow : Bool) (s : ClockState)
    (hinv : s.currentTimezoneIndex < NUM_TIMEZONES) :
    (updateTimezoneSettings sw s).currentTimezoneIndex < NUM_TIMEZONES ∧
    (updateLocationIfNeeded now gps autoPinLow sw s).currentTimezoneIndex <
      NUM_TIMEZONES ∧
    manualTimezoneIndex 9 = 1 ∧
    (∀ selector : Nat, manualTimezoneIndex selector < NUM_TIMEZONES) ∧
    (∀ lat lon : ℚ, detectTimezoneFromLocation lat lon < NUM_TIMEZONES) :=
  ⟨updateTimezoneSettings_index sw s hinv,
   updateLocationIfNeeded_index now gps autoPinLow sw s hinv,
   by decide,
   fun selector => by simp only [manualTimezoneIndex, NUM_TIMEZONES_eq]; omega,
   detectTimezoneFromLocation_lt⟩

/-- Witness for `timezone_index_invariant` at the manual fixture. -/
theorem timezone_index_invariant_witness :
    (updateTimezoneSettings manualSwitches manualState).currentTimezoneIndex <
      NUM_TIMEZONES :=
  (timezone_index_invariant manualSwitches 0 (gpsAt 1 1 24) false manualState
    (by decide)).1

/-- C6 (corrected, counterexample): in manual mode, selecting Atlantic
Standard (`observesDST = false`) while asserting the DST switch leaves the
state with `observesDST = false` for the current entry and yet
`isDSTActive = true`: the manual DST-switch path copies the switch level
into `isDSTActive` without consulting `observesDST`. -/
theorem dst_flag_counterexample :
    (getCurrentTimezone
        (updateTimezoneSettings manualSwitches manualState)).observesDST = false ∧
    (updateTimezoneSettings manualSwitches manualState).isDSTActive = true := by
  decide

/-- C6 (corrected, amended): if the current entry does not observe DST, the
DST offset actually applied to the time (`getDSTOffset`) reads as 0
regardless of the raw flag, and the auto-mode tick (mode staying auto)
preserves "`isDSTActive` is false for a non-DST timezone"; only the
manual-mode DST-switch update can set the raw flag for a non-DST entry. -/
theorem dst_flag_amended (now : Nat) (gps : GPSData) (autoPinLow : Bool)
    (sw : SwitchInputs) (s : ClockState)
    (hmode : s.autoModeEnabled = true) (hpin : autoPinLow = true)
    (hinv : (getCurrentTimezone s).observesDST = false → s.isDSTActive = false) :
    ((getCurrentTimezone s).observesDST = false → getDSTOffset s = 0) ∧
    ((getCurrentTimezone
        (updateLocationIfNeeded now gps autoPinLow sw s)).observesDST = false →
      (updateLocationIfNeeded now gps autoPinLow sw s).isDSTActive = false) := by
  subst hpin
  constructor
  · intro hobs
    unfold getDSTOffset
    simp [hobs]
  · intro hobs
    unfold updateLocationIfNeeded at hobs ⊢
    dsimp only at hobs ⊢
    split_ifs at hobs ⊢ <;> simp_all [getCurrentTimezone]

/-- Clock state in auto mode with a valid fix, sitting on the UTC entry. -/
def utcAutoState : ClockState :=
  { gpsFixValid := true, currentTimezoneIndex := 7 }

/-- Witness for `dst_flag_amended` at the UTC fixture. -/
theorem dst_flag_amended_witness : getDSTOffset utcAutoState = 0 :=
  (dst_flag_amended 0 (gpsAt 1 1 24) true ⟨false, false, false, false⟩
    utcAutoState rfl rfl (by decide)).1 (by decide)

/-- GPS snapshot at UTC 14:30:15 with a valid fix (date 2024-01-01,
position at the origin). -/
def utc143015 : GPSData := ⟨true, 14, 30, 15, 1, 1, 24, 0, 0⟩

/-- C8 (confirmed): with a valid fix the display formatter is a pure
function of the composed local time, producing
`displayValue = displayHour * 100 + minute` and `colonOn = (seconds even)`
and changing no state; end to end, UTC 14:30:15 under Pacific Standard
with DST active composes local hour 7 and displays 730 with the colon off
(15 is odd). -/
theorem display_formatter_spec (s : ClockState) (hfix : s.gpsFixValid = true) :
    updateDisplay s = DisplayOutput.time
        (convertTo12Hour (s.hours : Int) * 100 + (s.minutes : Int))
        (decide (s.seconds % 2 = 0)) ∧
    (updateTimeFromGPS utc143015 pacificDstState).hours = 7 ∧
    updateDisplay (updateTimeFromGPS utc143015 pacificDstState) =
      DisplayOutput.time 730 false := by
  have h7 : (updateTimeFromGPS utc143015 pacificDstState).hours = 7 := by
    unfold updateTimeFromGPS
    dsimp only
    rw [normalizeHours_eq_emod]
    norm_num [calculateTimezoneOffset, getTimezoneOffset, getDSTOffset,
      getCurrentTimezone, utc143015, pacificDstState, TIMEZONES, utcEntry]
    decide
  have hfix2 : (updateTimeFromGPS utc143015 pacificDstState).gpsFixValid = true := rfl
  have hm : (updateTimeFromGPS utc143015 pacificDstState).minutes = 30 := rfl
  have hs : (updateTimeFromGPS utc143015 pacificDstState).seconds = 15 := rfl
  refine ⟨?_, h7, ?_⟩
  · unfold updateDisplay
    rw [hfix]
    simp [TIME_24_HOUR]
  · unfold updateDisplay
    rw [hfix2, h7, hm, hs]
    norm_num [TIME_24_HOUR, convertTo12Hour]

/-- Clock state holding the composed local time 7:30:15 with a valid fix. -/
def fixedDisplayState : ClockState :=
  { gpsFixValid := true, hours := 7, minutes := 30, seconds := 15 }

/-- Witness for `display_formatter_spec` at the composed 7:30:15 state. -/
theorem display_formatter_spec_witness :
    updateDisplay fixedDisplayState = DisplayOutput.time
      (convertTo12Hour (fixedDisplayState.hours : Int) * 100 +
        (fixedDisplayState.minutes : Int))
      (decide (fixedDisplayState.seconds % 2 = 0)) :=
  (display_formatter_spec fixedDisplayState rfl).1

/-- C9 (confirmed): whenever the tick leaves `gpsFixValid` false, the time
compositor was not invoked — the local `hours`, `minutes` and `seconds`
fields are unchanged — and the display path short-circuits to the
no-signal indicator instead of rendering a composed time. -/
theorem no_fix_short_circuit (nmeaReceived parseOk : Bool) (gps : GPSData)
    (s : ClockState)
    (hnofix : (updateGPSData nmeaReceived parseOk gps s).gpsFixValid = false) :
    (updateGPSData nmeaReceived parseOk gps s).hours = s.hours ∧
    (updateGPSData nmeaReceived parseOk gps s).minutes = s.minutes ∧
    (updateGPSData nmeaReceived parseOk gps s).seconds = s.seconds ∧
    updateDisplay (updateGPSData nmeaReceived parseOk gps s) =
      DisplayOutput.noSignal := by
  unfold updateGPSData at hnofix ⊢
  dsimp only at hnofix ⊢
  split_ifs at hnofix ⊢ <;> simp_all [updateDisplay, updateTimeFromGPS]

/-- GPS snapshot whose sentence parsed but which reports no fix. -/
def noFixGps : GPSData := ⟨false, 14, 30, 15, 1, 1, 24, 0, 0⟩

/-- The clock state at power-up (all default member initializers). -/
def initialState : ClockState := {}

/-- Witness for `no_fix_short_circuit` on a parsed no-fix sentence. -/
theorem no_fix_short_circuit_witness :
    (updateGPSData true true noFixGps initialState).hours = initialState.hours :=
  (no_fix_short_circuit true true noFixGps initialState rfl).1
